import Mathlib

/-!
Shallow embedding of the load → filter → aggregate pipeline of `app.py`
(real-estate exploration dashboard).  Numeric cells are modelled as
rationals, nullable string cells as `Option String`.  The dataframe
operations used by the script (`isin`, `dropna`, `unique`, `sorted`,
`median`, `mean`, `groupby`, `sort_values`, boolean-mask filtering) are
embedded as list operations.
-/

/-- Round a rational to the nearest integer, sending exact halves to the
even neighbor (the rounding rule of the dataframe library's `round`). -/
def roundHalfEven (q : ℚ) : ℤ :=
  let n := ⌊q⌋
  let r := q - n
  if r < 1/2 then n
  else if 1/2 < r then n + 1
  else if n % 2 = 0 then n else n + 1

/-- Rounding to one decimal place, `round(x, 1)`. -/
def round1 (q : ℚ) : ℚ := (roundHalfEven (q * 10) : ℚ) / 10

/-- A raw columnar table, as read from the parquet file: an association
list of column name to column values (numeric columns suffice for the
columns the loader derives from). -/
abbrev RawTable := List (String × List ℚ)

/-- Membership test `c in df.columns`. -/
def hasCol (t : RawTable) (c : String) : Bool := t.any (fun p => p.1 == c)

/-- Observation of column `c`'s values on a table whose columns are
known (defaults to the empty column when absent); used only to state
properties of tables.  The program's fallible column access `df[c]` is
modelled by `getCol?` below. -/
def getCol (t : RawTable) (c : String) : List ℚ :=
  match t.find? (fun p => p.1 == c) with
  | some p => p.2
  | none => []

/-- Fallible column access `df[c]`: the values of column `c`, or the
uncaught `KeyError(c)` the dataframe library raises when the column is
absent. -/
def getCol? (t : RawTable) (c : String) : Except String (List ℚ) :=
  match t.find? (fun p => p.1 == c) with
  | some p => .ok p.2
  | none => .error c

/-- Line 24 of app.py: when `valor_estimado` is absent, evaluate
`df["valor_unitario_suelo"] * df["superficie_terreno"]` — accessing
`valor_unitario_suelo` first, then `superficie_terreno`, each raising a
`KeyError` naming that single column when absent — and append the
product column. -/
def deriveValorEstimado (t : RawTable) : Except String RawTable :=
  if hasCol t "valor_estimado" then .ok t
  else
    match getCol? t "valor_unitario_suelo" with
    | .error c => .error c
    | .ok vus =>
      match getCol? t "superficie_terreno" with
      | .error c => .error c
      | .ok st =>
        .ok (t ++ [("valor_estimado", List.zipWith (fun a b => a * b) vus st)])

/-- Line 27 of app.py: when `cal_inv` is absent, evaluate
`(df["indice_inversion"] * 10).round(1)` — raising a `KeyError` when
`indice_inversion` is absent — and append the rounded column. -/
def deriveCalInv (t : RawTable) : Except String RawTable :=
  if hasCol t "cal_inv" then .ok t
  else
    match getCol? t "indice_inversion" with
    | .error c => .error c
    | .ok ii => .ok (t ++ [("cal_inv", ii.map (fun x => round1 (x * 10)))])

/-- The function `load_data` (app.py lines 18-29): backfill
`valor_estimado` when absent, then `cal_inv` when absent; an uncaught
`KeyError` from either derivation aborts the load naming one column. -/
def load_data (t : RawTable) : Except String RawTable :=
  (deriveValorEstimado t).bind deriveCalInv

/-- The list `required_cols` (app.py lines 33-41). -/
def required_cols : List String :=
  ["latitud", "longitud",
   "categoria_cluster", "cluster_humano",
   "valor_unitario_suelo", "density",
   "indice_inversion", "antiguedad_norm",
   "superficie_terreno", "superficie_construccion",
   "colonia", "alcaldia", "valor_estimado",
   "cal_inv"]

/-- The list `missing = [c for c in required_cols if c not in df.columns]`
(app.py line 42). -/
def missingOf (t : RawTable) : List String :=
  required_cols.filter (fun c => !hasCol t c)

/-- How a failing load halts: an uncaught `KeyError` from a derivation
line (app.py line 24 or 27) naming a single column, or the complete
missing-column report of lines 43-45. -/
inductive LoadError where
  | keyError : String → LoadError
  | missingReport : List String → LoadError
deriving DecidableEq

/-- The module-level load sequence (app.py lines 18-45): run `load_data`
(which may abort with a `KeyError` naming one column), then compute the
missing required columns; on any missing column the script shows one
error naming the whole list and `st.stop()`s.  Either failure produces
no table at all — there is no partial state. -/
def runLoad (t : RawTable) : Except LoadError RawTable :=
  match load_data t with
  | .error c => .error (.keyError c)
  | .ok d =>
    let m := missingOf d
    if m.isEmpty then .ok d else .error (.missingReport m)

/-- A property record: one row of the loaded dataset, with the 14
required columns.  The two string columns the filters key on
(`categoria_cluster`, `colonia`) are nullable. -/
structure Row where
  latitud : ℚ
  longitud : ℚ
  categoria_cluster : Option String
  cluster_humano : String
  valor_unitario_suelo : ℚ
  density : ℚ
  indice_inversion : ℚ
  antiguedad_norm : ℚ
  superficie_terreno : ℚ
  superficie_construccion : ℚ
  colonia : Option String
  alcaldia : String
  valor_estimado : ℚ
  cal_inv : ℚ
deriving DecidableEq

/-- Membership test `series.isin(sel)` on a nullable string cell: a null cell belongs to
no selection. -/
def isinOpt (v : Option String) (sel : List String) : Bool :=
  match v with
  | none => false
  | some s => sel.contains s

/-- Category clause (`if categorias_sel: df_f = df_f[df_f["categoria_cluster"].isin(categorias_sel)]`,
app.py lines 132-133): an empty selection skips the clause. -/
def catClause (sel : List String) (l : List Row) : List Row :=
  if sel.isEmpty then l else l.filter (fun r => isinOpt r.categoria_cluster sel)

/-- Budget lower-bound clause (app.py lines 135-136): applied only when
the bracket's lower bound is not `None`. -/
def presMinClause (lo : Option ℚ) (l : List Row) : List Row :=
  match lo with
  | none => l
  | some m => l.filter (fun r => m ≤ r.valor_estimado)

/-- Budget upper-bound clause (app.py lines 137-138): applied only when
the bracket's upper bound is not `None`. -/
def presMaxClause (hi : Option ℚ) (l : List Row) : List Row :=
  match hi with
  | none => l
  | some m => l.filter (fun r => r.valor_estimado ≤ m)

/-- Colonia clause (app.py lines 140-141): an empty selection skips the
clause. -/
def colClause (sel : List String) (l : List Row) : List Row :=
  if sel.isEmpty then l else l.filter (fun r => isinOpt r.colonia sel)

/-- The filtered view `df_f` (app.py lines 130-141): the four filter clauses applied in
sequence to the base table. -/
def df_f (df : List Row) (categorias_sel : List String)
    (pres : Option ℚ × Option ℚ) (colonias_sel : List String) : List Row :=
  colClause colonias_sel
    (presMaxClause pres.2 (presMinClause pres.1 (catClause categorias_sel df)))

/-- The intermediate view `df_pre` (app.py lines 108-116): category and budget clauses only,
used to compute the available colonias. -/
def df_pre (df : List Row) (categorias_sel : List String)
    (pres : Option ℚ × Option ℚ) : List Row :=
  presMaxClause pres.2 (presMinClause pres.1 (catClause categorias_sel df))

/-- The operation `sorted(series.dropna().unique())`: the sorted list of distinct
non-null values. -/
def sortedUnique (l : List String) : List String :=
  List.insertionSort (· ≤ ·) l.dedup

/-- The list `categorias` (app.py line 87): the category multiselect's option
list. -/
def categorias (df : List Row) : List String :=
  sortedUnique (df.filterMap (fun r => r.categoria_cluster))

/-- The bracket table `presupuesto_opciones` (app.py lines 95-101). -/
def presupuesto_opciones : List (String × (Option ℚ × Option ℚ)) :=
  [("Cualquier presupuesto", (none, none)),
   ("Hasta $1M", (some 0, some 1000000)),
   ("$1M - $3M", (some 1000000, some 3000000)),
   ("$3M - $5M", (some 3000000, some 5000000)),
   ("Más de $5M", (some 5000000, none))]

/-- The lookup `pres_min, pres_max = presupuesto_opciones[presupuesto_sel]`
(app.py line 105). -/
def presupuesto_bounds (s : String) : Option ℚ × Option ℚ :=
  match presupuesto_opciones.find? (fun p => p.1 == s) with
  | some p => p.2
  | none => (none, none)

/-- The list `colonias_disponibles` (app.py line 118): the sorted distinct
non-null colonias of the category+budget-filtered table. -/
def colonias_disponibles (df : List Row) (categorias_sel : List String)
    (pres : Option ℚ × Option ℚ) : List String :=
  sortedUnique ((df_pre df categorias_sel pres).filterMap (fun r => r.colonia))

/-- The statistic `series.median()`: sort the values; take the middle one (odd length)
or the mean of the two middle ones (even length). -/
def medianQ (l : List ℚ) : ℚ :=
  let s := List.insertionSort (· ≤ ·) l
  if s.length = 0 then 0
  else if s.length % 2 = 1 then s.getD (s.length / 2) 0
  else (s.getD (s.length / 2 - 1) 0 + s.getD (s.length / 2) 0) / 2

/-- The KPI `total_predios = len(df_f)` (app.py line 148). -/
def total_predios (l : List Row) : ℕ := l.length

/-- The KPI `num_categorias = df_f["categoria_cluster"].nunique()` (app.py line
149): distinct non-null values. -/
def num_categorias (l : List Row) : ℕ :=
  (l.filterMap (fun r => r.categoria_cluster)).dedup.length

/-- The KPI `valor_mediano_m2`, computed as
`df_f["valor_unitario_suelo"].median() if total_predios > 0 else 0`
(app.py line 150). -/
def valor_mediano_m2 (l : List Row) : ℚ :=
  if 0 < total_predios l then medianQ (l.map (fun r => r.valor_unitario_suelo)) else 0

/-- One row of the `resumen` table (app.py lines 236-247). -/
structure SummaryRow where
  categoria_cluster : String
  colonia : String
  n_predios : ℕ
  terreno_mediana : ℚ
  construccion_mediana : ℚ
  cal_inv_media : ℚ
deriving DecidableEq

/-- The groupby key of a row; `groupby` drops rows whose key contains a
null. -/
def rowKey (r : Row) : Option (String × String) :=
  match r.categoria_cluster, r.colonia with
  | some c, some o => some (c, o)
  | _, _ => none

/-- Lexicographic order on (categoria, colonia) pairs: the order in which
`groupby` emits its group keys. -/
def pairLe (a b : String × String) : Prop :=
  a.1 < b.1 ∨ (a.1 = b.1 ∧ a.2 ≤ b.2)

instance : DecidableRel pairLe := fun a b => by
  unfold pairLe; infer_instance

/-- The distinct group keys of a table, in groupby's sorted order. -/
def groupKeys (df : List Row) : List (String × String) :=
  List.insertionSort pairLe ((df.filterMap rowKey).dedup)

/-- The rows of one group. -/
def groupRows (df : List Row) (k : String × String) : List Row :=
  df.filter (fun r => rowKey r == some k)

/-- The statistic `series.mean()`. -/
def meanQ (l : List ℚ) : ℚ := l.sum / (l.length : ℚ)

/-- The aggregated summary row of one group (`.agg(...)`, app.py lines
239-244): group size, median land area, median construction area, mean
investment score. -/
def aggRow (df : List Row) (k : String × String) : SummaryRow :=
  let g := groupRows df k
  { categoria_cluster := k.1
    colonia := k.2
    n_predios := g.length
    terreno_mediana := medianQ (g.map (fun r => r.superficie_terreno))
    construccion_mediana := medianQ (g.map (fun r => r.superficie_construccion))
    cal_inv_media := meanQ (g.map (fun r => r.cal_inv)) }

/-- The order of `.sort_values("cal_inv_media", ascending=False)`:
descending mean investment score. -/
def byMeanDesc (a b : SummaryRow) : Prop :=
  b.cal_inv_media ≤ a.cal_inv_media

instance : DecidableRel byMeanDesc := fun a b => by
  unfold byMeanDesc; infer_instance

/-- The summary table `resumen` (app.py lines 236-247): group the filtered table by
(categoria_cluster, colonia), aggregate each group, and sort the summary
rows by descending mean investment score. -/
def resumen (df : List Row) : List SummaryRow :=
  List.insertionSort byMeanDesc ((groupKeys df).map (aggRow df))

/-- The budget predicate of app.py lines 135-138 as a single boolean:
an unbounded side (`None`) imposes no constraint, bounded sides are
inclusive. -/
def passBudget (pres : Option ℚ × Option ℚ) (r : Row) : Bool :=
  (match pres.1 with
   | none => true
   | some m => decide (m ≤ r.valor_estimado)) &&
  (match pres.2 with
   | none => true
   | some m => decide (r.valor_estimado ≤ m))

lemma mem_df_f {df : List Row} {cats : List String} {pres : Option ℚ × Option ℚ}
    {cols : List String} {r : Row} :
    r ∈ df_f df cats pres cols ↔
      r ∈ df ∧ (cats.isEmpty || isinOpt r.categoria_cluster cats) = true ∧
        passBudget pres r = true ∧ (cols.isEmpty || isinOpt r.colonia cols) = true := by
  obtain ⟨lo, hi⟩ := pres
  unfold df_f catClause presMinClause presMaxClause colClause passBudget
  cases cats <;> cases cols <;> cases lo <;> cases hi <;>
    simp [List.mem_filter] <;> tauto

lemma catClause_sublist (sel : List String) (l : List Row) :
    List.Sublist (catClause sel l) l := by
  unfold catClause; split
  · exact List.Sublist.refl l
  · exact List.filter_sublist l

lemma presMinClause_sublist (lo : Option ℚ) (l : List Row) :
    List.Sublist (presMinClause lo l) l := by
  unfold presMinClause; split
  · exact List.Sublist.refl l
  · exact List.filter_sublist l

lemma presMaxClause_sublist (hi : Option ℚ) (l : List Row) :
    List.Sublist (presMaxClause hi l) l := by
  unfold presMaxClause; split
  · exact List.Sublist.refl l
  · exact List.filter_sublist l

lemma colClause_sublist (sel : List String) (l : List Row) :
    List.Sublist (colClause sel l) l := by
  unfold colClause; split
  · exact List.Sublist.refl l
  · exact List.filter_sublist l

lemma df_pre_sublist (df : List Row) (cats : List String) (pres : Option ℚ × Option ℚ) :
    List.Sublist (df_pre df cats pres) df :=
  ((presMaxClause_sublist _ _).trans (presMinClause_sublist _ _)).trans
    (catClause_sublist _ _)

lemma df_f_sublist (df : List Row) (cats : List String) (pres : Option ℚ × Option ℚ)
    (cols : List String) : List.Sublist (df_f df cats pres cols) df :=
  (colClause_sublist _ _).trans (df_pre_sublist df cats pres)

/-- C1: for every base table and every budget/neighborhood selection, an
empty category selection skips the category clause (the view equals the
pipeline with no category predicate), and an empty neighborhood
selection skips the colonia clause (the view equals the
category+budget-only pipeline `df_pre`). -/
theorem C1_empty_selection_skips_clause :
    (∀ (df : List Row) (pres : Option ℚ × Option ℚ) (colonias_sel : List String),
      df_f df [] pres colonias_sel =
        colClause colonias_sel (presMaxClause pres.2 (presMinClause pres.1 df))) ∧
    (∀ (df : List Row) (categorias_sel : List String) (pres : Option ℚ × Option ℚ),
      df_f df categorias_sel pres [] = df_pre df categorias_sel pres) := by
  exact ⟨fun _ _ _ => rfl, fun _ _ _ => rfl⟩

/-- A sample row: category "A", colonia "X". -/
def exRow : Row :=
  { latitud := 19, longitud := -99, categoria_cluster := some "A",
    cluster_humano := "h", valor_unitario_suelo := 1000, density := 1,
    indice_inversion := 1/2, antiguedad_norm := 1/2, superficie_terreno := 100,
    superficie_construccion := 50, colonia := some "X", alcaldia := "Coyoacán",
    valor_estimado := 100000, cal_inv := 5 }

/-- C2 counterexample: on a one-row base table, an empty selected-category
set (with the other clauses unconstrained) yields the whole table, not an
empty view — the claim that the filtered view contains no rows is false. -/
theorem C2_counterexample :
    df_f [exRow] [] (none, none) [] = [exRow] ∧ [exRow] ≠ ([] : List Row) := by
  exact ⟨rfl, by simp⟩

/-- C2 (amended): an empty selected-category set leaves the category
dimension unconstrained — with the budget unbounded and the neighborhood
selection empty the filtered view is the whole base table (empty
selection matches all, never nothing). -/
theorem C2_empty_selection_matches_all (df : List Row) :
    df_f df [] (none, none) [] = df := rfl

/-- C8: the KPI summarizer returns median unit land value exactly 0 on an
empty filtered subset; on every filtered subset the reported count is the
row count and the distinct-category count is the number of distinct
category labels present. -/
theorem C8_kpi_summarizer :
    valor_mediano_m2 [] = 0 ∧
    (∀ l : List Row, total_predios l = l.length) ∧
    (∀ l : List Row,
      num_categorias l = (l.filterMap (fun r => r.categoria_cluster)).toFinset.card) := by
  refine ⟨rfl, fun _ => rfl, fun l => ?_⟩
  rw [List.card_toFinset]
  rfl

lemma hasCol_append (t u : RawTable) (c : String) :
    hasCol (t ++ u) c = (hasCol t c || hasCol u c) := by
  unfold hasCol; exact List.any_append

lemma getCol_append_of_hasCol {t : RawTable} {c : String} (u : RawTable)
    (h : hasCol t c = true) : getCol (t ++ u) c = getCol t c := by
  unfold getCol
  rw [List.find?_append]
  unfold hasCol at h
  rw [List.any_eq_true] at h
  obtain ⟨p, hp, hpc⟩ := h
  have : (t.find? fun p => p.1 == c).isSome := by
    rw [List.find?_isSome]; exact ⟨p, hp, hpc⟩
  obtain ⟨q, hq⟩ := Option.isSome_iff_exists.mp this
  rw [hq]; rfl

lemma getCol_append_self {t : RawTable} {c : String} (v : List ℚ)
    (h : hasCol t c = false) : getCol (t ++ [(c, v)]) c = v := by
  unfold getCol
  rw [List.find?_append]
  have hn : t.find? (fun p => p.1 == c) = none := by
    rw [List.find?_eq_none]
    intro p hp
    unfold hasCol at h
    rw [List.any_eq_false] at h
    exact fun hc => h p hp hc
  rw [hn]
  simp

lemma getCol_append_ne {t : RawTable} {c c' : String} (v : List ℚ)
    (h : c' ≠ c) : getCol (t ++ [(c', v)]) c = getCol t c := by
  unfold getCol
  rw [List.find?_append]
  cases hf : t.find? (fun p => p.1 == c) with
  | some q => rfl
  | none =>
    have : ([((c', v) : String × List ℚ)].find? fun p => p.1 == c) = none := by
      rw [List.find?_eq_none]
      intro p hp
      simp only [List.mem_singleton] at hp
      subst hp
      simp [h]
    simp [this]

lemma hasCol_singleton (c c' : String) (v : List ℚ) :
    hasCol [(c, v)] c' = (c == c') := by
  simp [hasCol]

lemma hasCol_append_singleton_ne {t : RawTable} {c c' : String} {v : List ℚ}
    (h : hasCol t c = false) (hne : (c' == c) = false) :
    hasCol (t ++ [(c', v)]) c = false := by
  rw [hasCol_append, h, hasCol_singleton, hne]
  rfl

/-- The derived `valor_estimado` column appended by the loader. -/
abbrev veCol (t : RawTable) : String × List ℚ :=
  ("valor_estimado",
    List.zipWith (fun a b => a * b)
      (getCol t "valor_unitario_suelo") (getCol t "superficie_terreno"))

/-- The derived `cal_inv` column appended by the loader. -/
abbrev calCol (t : RawTable) : String × List ℚ :=
  ("cal_inv", (getCol t "indice_inversion").map (fun x => round1 (x * 10)))

lemma getCol?_of_hasCol {t : RawTable} {c : String} (h : hasCol t c = true) :
    getCol? t c = .ok (getCol t c) := by
  unfold hasCol at h
  rw [List.any_eq_true] at h
  obtain ⟨p, hp, hpc⟩ := h
  have hs : (t.find? fun p => p.1 == c).isSome := by
    rw [List.find?_isSome]; exact ⟨p, hp, hpc⟩
  obtain ⟨q, hq⟩ := Option.isSome_iff_exists.mp hs
  unfold getCol? getCol
  rw [hq]

lemma getCol?_of_not_hasCol {t : RawTable} {c : String} (h : hasCol t c = false) :
    getCol? t c = .error c := by
  have hn : t.find? (fun p => p.1 == c) = none := by
    rw [List.find?_eq_none]
    intro p hp
    unfold hasCol at h
    rw [List.any_eq_false] at h
    exact fun hc => h p hp hc
  unfold getCol?
  rw [hn]

lemma deriveVE_present {t : RawTable} (h : hasCol t "valor_estimado" = true) :
    deriveValorEstimado t = .ok t := by
  unfold deriveValorEstimado
  rw [if_pos h]

lemma deriveVE_absent {t : RawTable} (hve : hasCol t "valor_estimado" = false)
    (h1 : hasCol t "valor_unitario_suelo" = true)
    (h2 : hasCol t "superficie_terreno" = true) :
    deriveValorEstimado t = .ok (t ++ [veCol t]) := by
  unfold deriveValorEstimado
  rw [if_neg (by simp [hve]), getCol?_of_hasCol h1, getCol?_of_hasCol h2]

lemma deriveVE_keyError_vus {t : RawTable}
    (hve : hasCol t "valor_estimado" = false)
    (h1 : hasCol t "valor_unitario_suelo" = false) :
    deriveValorEstimado t = .error "valor_unitario_suelo" := by
  unfold deriveValorEstimado
  rw [if_neg (by simp [hve]), getCol?_of_not_hasCol h1]

lemma deriveVE_keyError_st {t : RawTable}
    (hve : hasCol t "valor_estimado" = false)
    (h1 : hasCol t "valor_unitario_suelo" = true)
    (h2 : hasCol t "superficie_terreno" = false) :
    deriveValorEstimado t = .error "superficie_terreno" := by
  unfold deriveValorEstimado
  rw [if_neg (by simp [hve]), getCol?_of_hasCol h1, getCol?_of_not_hasCol h2]

lemma deriveCI_present {t : RawTable} (h : hasCol t "cal_inv" = true) :
    deriveCalInv t = .ok t := by
  unfold deriveCalInv
  rw [if_pos h]

lemma deriveCI_absent {t : RawTable} (hci : hasCol t "cal_inv" = false)
    (h1 : hasCol t "indice_inversion" = true) :
    deriveCalInv t = .ok (t ++ [calCol t]) := by
  unfold deriveCalInv
  rw [if_neg (by simp [hci]), getCol?_of_hasCol h1]

lemma deriveCI_keyError {t : RawTable} (hci : hasCol t "cal_inv" = false)
    (h1 : hasCol t "indice_inversion" = false) :
    deriveCalInv t = .error "indice_inversion" := by
  unfold deriveCalInv
  rw [if_neg (by simp [hci]), getCol?_of_not_hasCol h1]

/-- C3 counterexample: on the empty source table every one of the 14
required columns is missing, yet line 24 evaluates
`df["valor_unitario_suelo"]` first, so the program halts with an
uncaught `KeyError` naming that single column; the complete-list report
of lines 43-45 is never reached, although the full missing list (all of
`required_cols`, e.g. `latitud`) is strictly larger than the one name
reported. -/
theorem C3_counterexample :
    runLoad [] = .error (LoadError.keyError "valor_unitario_suelo") ∧
    missingOf [] = required_cols ∧
    required_cols ≠ ["valor_unitario_suelo"] :=
  ⟨rfl, rfl, by decide⟩

/-- C3 (amended): the complete-list report holds exactly on the tables
where the derivation lines themselves do not crash: whenever `load_data`
succeeds and required columns are still missing, the load halts with a
single error naming every missing column (and no table is produced);
but when an absent derivable column's input is itself absent, the
program instead halts with an uncaught `KeyError` naming only that one
column, never reaching the complete-list report. -/
theorem C3_missing_columns_halt :
    required_cols.length = 14 ∧
    (∀ (t d : RawTable), load_data t = Except.ok d → missingOf d ≠ [] →
      runLoad t = .error (.missingReport (missingOf d)) ∧
      ∀ c, c ∈ missingOf d ↔ c ∈ required_cols ∧ hasCol d c = false) ∧
    (∀ (t : RawTable) (c : String), load_data t = Except.error c →
      runLoad t = .error (.keyError c)) := by
  refine ⟨rfl, fun t d hld h => ⟨?_, fun c => ?_⟩, fun t c hld => ?_⟩
  · simp only [runLoad, hld]
    rw [if_neg (by simpa [List.isEmpty_iff] using h)]
  · unfold missingOf
    simp [List.mem_filter]
  · simp only [runLoad, hld]

/-- C3 witness: a source table already containing the two derivable
columns but nothing else loads without a `KeyError` and is then reported
with the complete 12-column missing list. -/
theorem C3_witness :
    runLoad [("valor_estimado", [(1 : ℚ)]), ("cal_inv", [1])] =
      .error (.missingReport
        (missingOf [("valor_estimado", [(1 : ℚ)]), ("cal_inv", [1])])) := by
  have hld : load_data [("valor_estimado", [(1 : ℚ)]), ("cal_inv", [1])] =
      Except.ok [("valor_estimado", [(1 : ℚ)]), ("cal_inv", [1])] := by
    unfold load_data
    rw [deriveVE_present (by decide)]
    show deriveCalInv [("valor_estimado", [(1 : ℚ)]), ("cal_inv", [1])] =
      Except.ok [("valor_estimado", [(1 : ℚ)]), ("cal_inv", [1])]
    exact deriveCI_present (by decide)
  exact (C3_missing_columns_halt.2.1 _ _ hld (by decide)).1

/-- C4: on every load that produces a table, the loader backfills
exactly the stated formulas — when `valor_estimado` is absent it becomes
the row-wise product of `valor_unitario_suelo` and `superficie_terreno`;
when `cal_inv` is absent it becomes `round(indice_inversion * 10, 1)`
row-wise; every column that is already present is left unchanged. -/
theorem C4_loader_backfill (t d : RawTable) (hload : load_data t = Except.ok d) :
    (hasCol t "valor_estimado" = false →
      getCol d "valor_estimado" =
        List.zipWith (fun a b => a * b)
          (getCol t "valor_unitario_suelo") (getCol t "superficie_terreno")) ∧
    (hasCol t "cal_inv" = false →
      getCol d "cal_inv" =
        (getCol t "indice_inversion").map (fun x => round1 (x * 10))) ∧
    (∀ c, hasCol t c = true → getCol d c = getCol t c) := by
  obtain ⟨t1, hve, hci⟩ :
      ∃ t1, deriveValorEstimado t = .ok t1 ∧ deriveCalInv t1 = .ok d := by
    unfold load_data at hload
    cases hve : deriveValorEstimado t with
    | error c =>
      rw [hve] at hload
      exact absurd hload (by simp [Except.bind])
    | ok t1 =>
      rw [hve] at hload
      exact ⟨t1, rfl, by simpa [Except.bind] using hload⟩
  have hstage1 : (hasCol t "valor_estimado" = true ∧ t1 = t) ∨
      (hasCol t "valor_estimado" = false ∧
        hasCol t "valor_unitario_suelo" = true ∧
        hasCol t "superficie_terreno" = true ∧ t1 = t ++ [veCol t]) := by
    by_cases h1 : hasCol t "valor_estimado" = true
    · rw [deriveVE_present h1] at hve
      exact Or.inl ⟨h1, ((Except.ok.injEq _ _).mp hve).symm⟩
    · have h1f : hasCol t "valor_estimado" = false := by simpa using h1
      have hvus : hasCol t "valor_unitario_suelo" = true := by
        by_contra hh
        have hf : hasCol t "valor_unitario_suelo" = false := by simpa using hh
        rw [deriveVE_keyError_vus h1f hf] at hve
        exact absurd hve (by simp)
      have hst : hasCol t "superficie_terreno" = true := by
        by_contra hh
        have hf : hasCol t "superficie_terreno" = false := by simpa using hh
        rw [deriveVE_keyError_st h1f hvus hf] at hve
        exact absurd hve (by simp)
      rw [deriveVE_absent h1f hvus hst] at hve
      exact Or.inr ⟨h1f, hvus, hst, ((Except.ok.injEq _ _).mp hve).symm⟩
  have hstage2 : (hasCol t1 "cal_inv" = true ∧ d = t1) ∨
      (hasCol t1 "cal_inv" = false ∧ hasCol t1 "indice_inversion" = true ∧
        d = t1 ++ [calCol t1]) := by
    by_cases h2 : hasCol t1 "cal_inv" = true
    · rw [deriveCI_present h2] at hci
      exact Or.inl ⟨h2, ((Except.ok.injEq _ _).mp hci).symm⟩
    · have h2f : hasCol t1 "cal_inv" = false := by simpa using h2
      have hii : hasCol t1 "indice_inversion" = true := by
        by_contra hh
        have hf : hasCol t1 "indice_inversion" = false := by simpa using hh
        rw [deriveCI_keyError h2f hf] at hci
        exact absurd hci (by simp)
      rw [deriveCI_absent h2f hii] at hci
      exact Or.inr ⟨h2f, hii, ((Except.ok.injEq _ _).mp hci).symm⟩
  refine ⟨fun h => ?_, fun h => ?_, fun c hc => ?_⟩
  · rcases hstage1 with ⟨hv, -⟩ | ⟨-, -, -, ht1⟩
    · rw [h] at hv
      exact absurd hv (by simp)
    · subst ht1
      rcases hstage2 with ⟨-, hd⟩ | ⟨-, -, hd⟩
      · subst hd
        exact getCol_append_self _ h
      · subst hd
        rw [getCol_append_ne _ (by decide)]
        exact getCol_append_self _ h
  · rcases hstage2 with ⟨hc1, -⟩ | ⟨hc1, -, hd⟩
    · rcases hstage1 with ⟨-, ht1⟩ | ⟨-, -, -, ht1⟩
      · rw [ht1, h] at hc1
        exact absurd hc1 (by simp)
      · rw [ht1, hasCol_append_singleton_ne h (by decide)] at hc1
        exact absurd hc1 (by simp)
    · subst hd
      rw [getCol_append_self _ hc1]
      rcases hstage1 with ⟨-, ht1⟩ | ⟨-, -, -, ht1⟩
      · rw [ht1]
      · subst ht1
        rw [getCol_append_ne _ (by decide)]
  · rcases hstage1 with ⟨-, ht1⟩ | ⟨-, -, -, ht1⟩ <;> subst ht1
    · rcases hstage2 with ⟨-, hd⟩ | ⟨-, -, hd⟩ <;> subst hd
      · rfl
      · exact getCol_append_of_hasCol _ hc
    · have hcc : hasCol (t ++ [veCol t]) c = true := by
        rw [hasCol_append, hc]; rfl
      rcases hstage2 with ⟨-, hd⟩ | ⟨-, -, hd⟩ <;> subst hd
      · exact getCol_append_of_hasCol _ hc
      · rw [getCol_append_of_hasCol _ hcc]
        exact getCol_append_of_hasCol _ hc

/-- Witness source table for C4: derivation inputs present, both
derivable columns absent. -/
def exT4 : RawTable :=
  [("valor_unitario_suelo", [2000]), ("superficie_terreno", [100]),
   ("indice_inversion", [1])]

/-- The table produced by loading `exT4`. -/
def exT4loaded : RawTable :=
  [("valor_unitario_suelo", [2000]), ("superficie_terreno", [100]),
   ("indice_inversion", [1]), ("valor_estimado", [200000]),
   ("cal_inv", [10])]

/-- C4 witness: the source table lacking `valor_estimado` whose single
row has `valor_unitario_suelo = 2000` and `superficie_terreno = 100`
loads successfully with `valor_estimado = 200000` for that row. -/
theorem C4_witness :
    load_data exT4 = Except.ok exT4loaded ∧
    getCol exT4loaded "valor_estimado" = [(200000 : ℚ)] := by
  have hve : deriveValorEstimado exT4 = .ok (exT4 ++ [veCol exT4]) :=
    deriveVE_absent (by decide) (by decide) (by decide)
  have hci : deriveCalInv (exT4 ++ [veCol exT4]) =
      .ok ((exT4 ++ [veCol exT4]) ++ [calCol (exT4 ++ [veCol exT4])]) :=
    deriveCI_absent (by decide) (by decide)
  have hv : veCol exT4 = ("valor_estimado", [(2000 : ℚ) * 100]) := rfl
  have hc : calCol (exT4 ++ [veCol exT4]) =
      ("cal_inv", [round1 ((1 : ℚ) * 10)]) := rfl
  have hm : (2000 : ℚ) * 100 = 200000 := by norm_num
  have hr : round1 ((1 : ℚ) * 10) = 10 := by
    norm_num [round1, roundHalfEven]
  have hE : (exT4 ++ [veCol exT4]) ++ [calCol (exT4 ++ [veCol exT4])] =
      exT4loaded := by
    rw [hc, hv, hm, hr]
    rfl
  have hload : load_data exT4 = Except.ok exT4loaded := by
    unfold load_data
    rw [hve]
    show deriveCalInv (exT4 ++ [veCol exT4]) = Except.ok exT4loaded
    rw [hci, hE]
  refine ⟨hload, ?_⟩
  have h := (C4_loader_backfill exT4 exT4loaded hload).1 (by decide)
  rw [h]
  have h1 : getCol exT4 "valor_unitario_suelo" = [(2000 : ℚ)] := rfl
  have h2 : getCol exT4 "superficie_terreno" = [(100 : ℚ)] := rfl
  rw [h1, h2]
  norm_num [List.zipWith]

lemma isinOpt_some_iff {s : String} {sel : List String} :
    isinOpt (some s) sel = true ↔ s ∈ sel := by
  simp [isinOpt, List.contains]

lemma mem_df_f_budget {df : List Row} {lo hi : Option ℚ} {r : Row} :
    r ∈ df_f df [] (lo, hi) [] ↔ r ∈ df ∧ passBudget (lo, hi) r = true := by
  rw [mem_df_f]
  simp

/-- C6: every budget bracket bound is inclusive and a `None` side imposes
no constraint: a row valued exactly 1,000,000 is retained under
"Hasta $1M", a row valued exactly 5,000,000 is retained under
"Más de $5M", and membership in the budget-filtered view is exactly the
conjunction of the inclusive bound comparisons that are present. -/
theorem C6_budget_brackets_inclusive :
    presupuesto_bounds "Hasta $1M" = (some 0, some 1000000) ∧
    presupuesto_bounds "Más de $5M" = (some 5000000, none) ∧
    presupuesto_bounds "Cualquier presupuesto" = (none, none) ∧
    (∀ (df : List Row) (r : Row), r ∈ df → r.valor_estimado = 1000000 →
      r ∈ df_f df [] (presupuesto_bounds "Hasta $1M") []) ∧
    (∀ (df : List Row) (r : Row), r ∈ df → r.valor_estimado = 5000000 →
      r ∈ df_f df [] (presupuesto_bounds "Más de $5M") []) ∧
    (∀ (df : List Row) (r : Row) (lo hi : ℚ),
      r ∈ df_f df [] (some lo, some hi) [] ↔
        r ∈ df ∧ lo ≤ r.valor_estimado ∧ r.valor_estimado ≤ hi) ∧
    (∀ (df : List Row) (r : Row) (lo : ℚ),
      r ∈ df_f df [] (some lo, none) [] ↔ r ∈ df ∧ lo ≤ r.valor_estimado) ∧
    (∀ (df : List Row) (r : Row) (hi : ℚ),
      r ∈ df_f df [] (none, some hi) [] ↔ r ∈ df ∧ r.valor_estimado ≤ hi) ∧
    (∀ (df : List Row) (r : Row), r ∈ df_f df [] (none, none) [] ↔ r ∈ df) := by
  refine ⟨rfl, rfl, rfl, ?_, ?_, ?_, ?_, ?_, ?_⟩
  · intro df r hr hv
    rw [show presupuesto_bounds "Hasta $1M" = (some 0, some 1000000) from rfl,
      mem_df_f_budget]
    refine ⟨hr, ?_⟩
    simp only [passBudget, hv]
    norm_num
  · intro df r hr hv
    rw [show presupuesto_bounds "Más de $5M" = (some 5000000, none) from rfl,
      mem_df_f_budget]
    refine ⟨hr, ?_⟩
    simp only [passBudget, hv]
    norm_num
  · intro df r lo hi
    rw [mem_df_f_budget]
    simp [passBudget]
  · intro df r lo
    rw [mem_df_f_budget]
    simp [passBudget]
  · intro df r hi
    rw [mem_df_f_budget]
    simp [passBudget]
  · intro df r
    rw [mem_df_f_budget]
    simp [passBudget]

/-- A sample row valued at exactly one million. -/
def exRow1M : Row := { exRow with valor_estimado := 1000000 }

/-- C6 witness: the bracket "Hasta $1M" keeps a row valued exactly
1,000,000. -/
theorem C6_witness :
    exRow1M ∈ df_f [exRow1M] [] (presupuesto_bounds "Hasta $1M") [] :=
  C6_budget_brackets_inclusive.2.2.2.1 [exRow1M] exRow1M (by simp) rfl

lemma catClause_mono_list (sel : List String) {l₁ l₂ : List Row}
    (h : List.Sublist l₁ l₂) : List.Sublist (catClause sel l₁) (catClause sel l₂) := by
  by_cases hs : sel.isEmpty = true
  · simpa [catClause, hs] using h
  · simpa [catClause, hs] using h.filter _

lemma colClause_mono_list (sel : List String) {l₁ l₂ : List Row}
    (h : List.Sublist l₁ l₂) : List.Sublist (colClause sel l₁) (colClause sel l₂) := by
  by_cases hs : sel.isEmpty = true
  · simpa [colClause, hs] using h
  · simpa [colClause, hs] using h.filter _

lemma presMinClause_mono_list (lo : Option ℚ) {l₁ l₂ : List Row}
    (h : List.Sublist l₁ l₂) : List.Sublist (presMinClause lo l₁) (presMinClause lo l₂) := by
  cases lo with
  | none => simpa [presMinClause] using h
  | some m => simpa [presMinClause] using h.filter _

lemma presMaxClause_mono_list (hi : Option ℚ) {l₁ l₂ : List Row}
    (h : List.Sublist l₁ l₂) : List.Sublist (presMaxClause hi l₁) (presMaxClause hi l₂) := by
  cases hi with
  | none => simpa [presMaxClause] using h
  | some m => simpa [presMaxClause] using h.filter _

lemma isinOpt_mono {v : Option String} {sel' sel : List String}
    (hsub : sel' ⊆ sel) (h : isinOpt v sel' = true) : isinOpt v sel = true := by
  cases v with
  | none => exact absurd h (by simp [isinOpt])
  | some s => exact isinOpt_some_iff.mpr (hsub (isinOpt_some_iff.mp h))

lemma catClause_narrow {sel' sel : List String} (l : List Row)
    (hne : sel' ≠ []) (hsub : sel' ⊆ sel) :
    List.Sublist (catClause sel' l) (catClause sel l) := by
  have hs' : sel'.isEmpty = false := by
    simpa [List.isEmpty_iff] using hne
  by_cases hs : sel.isEmpty = true
  · simp [catClause, hs, hs']
  · simp only [catClause, hs, hs', Bool.false_eq_true, if_false]
    exact List.monotone_filter_right l (fun r hr => isinOpt_mono hsub hr)

lemma colClause_narrow {sel' sel : List String} (l : List Row)
    (hne : sel' ≠ []) (hsub : sel' ⊆ sel) :
    List.Sublist (colClause sel' l) (colClause sel l) := by
  have hs' : sel'.isEmpty = false := by
    simpa [List.isEmpty_iff] using hne
  by_cases hs : sel.isEmpty = true
  · simp [colClause, hs, hs']
  · simp only [colClause, hs, hs', Bool.false_eq_true, if_false]
    exact List.monotone_filter_right l (fun r hr => isinOpt_mono hsub hr)

/-- A row whose category label is null. -/
def exRowNullCat : Row := { exRow with categoria_cluster := none }

/-- A two-row table: one labelled row (category "A"), one null-category
row. -/
def exDf7 : List Row := [exRow, exRowNullCat]

/-- C7 counterexample: on a table with a null-category row, narrowing
the category selection from the full offered list ["A"] to its strict
subset [] (deselecting everything) strictly increases the filtered row
count — the clause is disabled and the null-category row comes back, so
the count is not monotonically non-increasing under narrowing to an
arbitrary strict subset. -/
theorem C7_counterexample :
    categorias exDf7 = ["A"] ∧
    ([] : List String) ⊆ categorias exDf7 ∧
    ([] : List String) ≠ categorias exDf7 ∧
    (df_f exDf7 (categorias exDf7) (none, none) []).length <
      (df_f exDf7 [] (none, none) []).length := by
  refine ⟨rfl, by simp, ?_, ?_⟩
  · rw [show categorias exDf7 = ["A"] from rfl]
    simp
  have h1 : (df_f exDf7 (categorias exDf7) (none, none) []).length = 1 := rfl
  have h2 : (df_f exDf7 [] (none, none) []).length = 2 := rfl
  rw [h1, h2]
  norm_num

/-- C7 (amended): the filtered subset is always a sublist of the base
table (no fabrication, no duplication), and its row count is
monotonically non-increasing when any single clause is narrowed from
"all" to a NONEMPTY strict subset of the selection, or the budget from
unbounded to any bracket; narrowing a multiselect to the empty selection
instead disables that clause and can increase the count when
null-labelled rows exist. -/
theorem C7_subset_and_monotonicity :
    (∀ (df : List Row) (cats : List String) (pres : Option ℚ × Option ℚ)
        (cols : List String), List.Sublist (df_f df cats pres cols) df) ∧
    (∀ (df : List Row) (pres : Option ℚ × Option ℚ) (cols : List String)
        (cats cats' : List String), cats' ≠ [] → cats' ⊆ cats →
      (df_f df cats' pres cols).length ≤ (df_f df cats pres cols).length) ∧
    (∀ (df : List Row) (cats : List String) (cols : List String)
        (pres : Option ℚ × Option ℚ),
      (df_f df cats pres cols).length ≤ (df_f df cats (none, none) cols).length) ∧
    (∀ (df : List Row) (cats : List String) (pres : Option ℚ × Option ℚ)
        (cols cols' : List String), cols' ≠ [] → cols' ⊆ cols →
      (df_f df cats pres cols').length ≤ (df_f df cats pres cols).length) := by
  refine ⟨df_f_sublist, ?_, ?_, ?_⟩
  · intro df pres cols cats cats' hne hsub
    exact (colClause_mono_list cols (presMaxClause_mono_list pres.2
      (presMinClause_mono_list pres.1 (catClause_narrow df hne hsub)))).length_le
  · intro df cats cols pres
    exact (colClause_mono_list cols ((presMaxClause_sublist pres.2 _).trans
      (presMinClause_sublist pres.1 _))).length_le
  · intro df cats pres cols cols' hne hsub
    exact (colClause_narrow _ hne hsub).length_le

/-- C7 witness: with a one-row table, narrowing the category selection
from ["A", "B"] to the nonempty strict subset ["A"] does not increase
the filtered row count. -/
theorem C7_witness :
    (df_f [exRow] ["A"] (none, none) []).length ≤
      (df_f [exRow] ["A", "B"] (none, none) []).length :=
  C7_subset_and_monotonicity.2.1 [exRow] (none, none) [] ["A", "B"] ["A"]
    (by simp) (by simp)

/-- C9: the neighborhood option domain is the sorted, duplicate-free
list of exactly the neighborhoods present in the table filtered by the
category and budget clauses alone; and appending selection entries from
outside this offered domain (stale/invalid names) leaves the final
filtered view unchanged — they match no surviving row and no error
occurs. -/
theorem C9_colonia_domain :
    (∀ (df : List Row) (cats : List String) (pres : Option ℚ × Option ℚ),
      List.Sorted (· ≤ ·) (colonias_disponibles df cats pres) ∧
      (colonias_disponibles df cats pres).Nodup ∧
      (∀ c, c ∈ colonias_disponibles df cats pres ↔
        ∃ r ∈ df_pre df cats pres, r.colonia = some c)) ∧
    (∀ (df : List Row) (cats : List String) (pres : Option ℚ × Option ℚ)
        (sel junk : List String), sel ≠ [] →
      (∀ j ∈ junk, j ∉ colonias_disponibles df cats pres) →
      df_f df cats pres (sel ++ junk) = df_f df cats pres sel) := by
  constructor
  · intro df cats pres
    refine ⟨List.sorted_insertionSort _ _, ?_, fun c => ?_⟩
    · exact (List.perm_insertionSort _ _).nodup_iff.mpr (List.nodup_dedup _)
    · rw [colonias_disponibles, sortedUnique,
        (List.perm_insertionSort _ _).mem_iff, List.mem_dedup, List.mem_filterMap]
  · intro df cats pres sel junk hsel hjunk
    have hne : sel ++ junk ≠ [] := by
      cases sel with
      | nil => exact absurd rfl hsel
      | cons a as => simp
    unfold df_f colClause
    rw [if_neg (by simpa [List.isEmpty_iff] using hne),
      if_neg (by simpa [List.isEmpty_iff] using hsel)]
    apply List.filter_congr
    intro r hr
    cases hc : r.colonia with
    | none => simp [isinOpt]
    | some s =>
      have hsdom : s ∈ colonias_disponibles df cats pres := by
        rw [colonias_disponibles, sortedUnique,
          (List.perm_insertionSort _ _).mem_iff, List.mem_dedup, List.mem_filterMap]
        exact ⟨r, hr, hc⟩
      have hs : s ∉ junk := fun hj => hjunk s hj hsdom
      simp [isinOpt, List.contains, hs]

/-- C9 witness: appending the out-of-domain colonia "ZZZ" to the
selection ["X"] leaves the filtered view unchanged. -/
theorem C9_witness :
    df_f [exRow] [] (none, none) (["X"] ++ ["ZZZ"]) =
      df_f [exRow] [] (none, none) ["X"] :=
  C9_colonia_domain.2 [exRow] [] (none, none) ["X"] ["ZZZ"] (by simp)
    (by
      intro j hj
      simp only [List.mem_singleton] at hj
      subst hj
      intro hmem
      have : colonias_disponibles [exRow] [] (none, none) = ["X"] := by decide
      rw [this] at hmem
      simp at hmem)

/-- C10: a row whose category label (resp. colonia) is null is included
in the filtered view when that dimension's selection is empty, but is
excluded under every non-empty selection on that dimension — in
particular under the default full option list, which is built with nulls
dropped and so (when non-empty) never matches the null row. -/
theorem C10_null_label_rows :
    ∀ (df : List Row) (r : Row) (pres : Option ℚ × Option ℚ),
      r ∈ df → passBudget pres r = true →
      ((r.categoria_cluster = none →
        r ∈ df_f df [] pres [] ∧
        (∀ sel : List String, sel ≠ [] → r ∉ df_f df sel pres []) ∧
        (categorias df ≠ [] → r ∉ df_f df (categorias df) pres [])) ∧
       (r.colonia = none →
        r ∈ df_f df [] pres [] ∧
        (∀ sel : List String, sel ≠ [] → r ∉ df_f df [] pres sel) ∧
        (colonias_disponibles df [] pres ≠ [] →
          r ∉ df_f df [] pres (colonias_disponibles df [] pres)))) := by
  intro df r pres hr hb
  have hin : r ∈ df_f df [] pres [] := by
    rw [mem_df_f]
    exact ⟨hr, by simp, hb, by simp⟩
  constructor
  · intro hnone
    have hnotin : ∀ sel : List String, sel ≠ [] → r ∉ df_f df sel pres [] := by
      intro sel hsel hmem
      rw [mem_df_f] at hmem
      obtain ⟨-, hcat, -, -⟩ := hmem
      cases sel with
      | nil => exact hsel rfl
      | cons a as =>
        rw [hnone] at hcat
        simp [isinOpt] at hcat
    exact ⟨hin, hnotin, fun hne => hnotin _ hne⟩
  · intro hnone
    have hnotin : ∀ sel : List String, sel ≠ [] → r ∉ df_f df [] pres sel := by
      intro sel hsel hmem
      rw [mem_df_f] at hmem
      obtain ⟨-, -, -, hcol⟩ := hmem
      cases sel with
      | nil => exact hsel rfl
      | cons a as =>
        rw [hnone] at hcol
        simp [isinOpt] at hcol
    exact ⟨hin, hnotin, fun hne => hnotin _ hne⟩

/-- C10 witness: on the two-row table, the null-category row is in the
filtered view under the empty category selection but not under the
default (full) option list ["A"]. -/
theorem C10_witness :
    exRowNullCat ∈ df_f exDf7 [] (none, none) [] ∧
    exRowNullCat ∉ df_f exDf7 (categorias exDf7) (none, none) [] := by
  have h := (C10_null_label_rows exDf7 exRowNullCat (none, none)
    (by simp [exDf7]) rfl).1 rfl
  exact ⟨h.1, h.2.2 (by rw [show categorias exDf7 = ["A"] from rfl]; simp)⟩

instance : IsTotal SummaryRow byMeanDesc :=
  ⟨fun a b => le_total b.cal_inv_media a.cal_inv_media⟩

instance : IsTrans SummaryRow byMeanDesc :=
  ⟨fun _ _ _ h1 h2 => le_trans h2 h1⟩

/-- Concrete 3-row test table, first row of group (CategoryA, Neighborhood1). -/
def exA1 : Row :=
  { latitud := 0, longitud := 0, categoria_cluster := some "CategoryA",
    cluster_humano := "h", valor_unitario_suelo := 1, density := 1,
    indice_inversion := 1, antiguedad_norm := 1, superficie_terreno := 100,
    superficie_construccion := 50, colonia := some "Neighborhood1",
    alcaldia := "m", valor_estimado := 1, cal_inv := 8 }

/-- Second row of group (CategoryA, Neighborhood1). -/
def exA2 : Row :=
  { exA1 with
    superficie_terreno := 200, superficie_construccion := 70, cal_inv := 6 }

/-- The single row of group (CategoryB, Neighborhood2). -/
def exB : Row :=
  { exA1 with
    categoria_cluster := some "CategoryB", colonia := some "Neighborhood2",
    superficie_terreno := 300, superficie_construccion := 80, cal_inv := 9 }

/-- The 3-row filtered subset of the aggregation test. -/
def exDf5 : List Row := [exA1, exA2, exB]

/-- C5: the aggregation output is sorted by descending mean investment
score; it consists of exactly one summary row per distinct
(category, colonia) key appearing in the table, each aggregated by
`aggRow` (group size, median areas, mean score); and on the concrete
3-row subset — two (CategoryA, Neighborhood1) rows scoring 8 and 6, one
(CategoryB, Neighborhood2) row scoring 9 — it yields exactly
[(CategoryB, Neighborhood2, mean 9), (CategoryA, Neighborhood1, mean 7)]
in that order. -/
theorem C5_aggregation :
    (∀ df : List Row, List.Sorted byMeanDesc (resumen df)) ∧
    (∀ df : List Row,
      List.Perm (resumen df) ((groupKeys df).map (aggRow df))) ∧
    (∀ (df : List Row) (k : String × String),
      k ∈ groupKeys df ↔ ∃ r ∈ df, rowKey r = some k) ∧
    resumen exDf5 =
      [{ categoria_cluster := "CategoryB", colonia := "Neighborhood2",
         n_predios := 1, terreno_mediana := 300, construccion_mediana := 80,
         cal_inv_media := 9 },
       { categoria_cluster := "CategoryA", colonia := "Neighborhood1",
         n_predios := 2, terreno_mediana := 150, construccion_mediana := 60,
         cal_inv_media := 7 }] := by
  refine ⟨fun df => List.sorted_insertionSort _ _,
    fun df => List.perm_insertionSort _ _, fun df k => ?_, ?_⟩
  · rw [groupKeys, (List.perm_insertionSort _ _).mem_iff, List.mem_dedup,
      List.mem_filterMap]
  · have hkeys : groupKeys exDf5 =
        [("CategoryA", "Neighborhood1"), ("CategoryB", "Neighborhood2")] := by
      rw [groupKeys]
      have hd : (exDf5.filterMap rowKey).dedup =
          [("CategoryA", "Neighborhood1"), ("CategoryB", "Neighborhood2")] := by decide
      rw [hd]
      refine List.Sorted.insertionSort_eq ?_
      refine List.sorted_cons.mpr ⟨?_, List.sorted_singleton _⟩
      intro b hb
      rw [List.mem_singleton] at hb
      subst hb
      left
      rw [String.lt_iff_toList_lt]
      decide
    have hgA : groupRows exDf5 ("CategoryA", "Neighborhood1") = [exA1, exA2] := by
      decide
    have hgB : groupRows exDf5 ("CategoryB", "Neighborhood2") = [exB] := by
      decide
    have hA : aggRow exDf5 ("CategoryA", "Neighborhood1") =
        { categoria_cluster := "CategoryA", colonia := "Neighborhood1",
          n_predios := 2, terreno_mediana := 150, construccion_mediana := 60,
          cal_inv_media := 7 } := by
      rw [aggRow, hgA]
      simp only [SummaryRow.mk.injEq, exA1, exA2]
      norm_num [medianQ, meanQ, List.insertionSort, List.orderedInsert]
    have hB : aggRow exDf5 ("CategoryB", "Neighborhood2") =
        { categoria_cluster := "CategoryB", colonia := "Neighborhood2",
          n_predios := 1, terreno_mediana := 300, construccion_mediana := 80,
          cal_inv_media := 9 } := by
      rw [aggRow, hgB]
      simp only [SummaryRow.mk.injEq, exA1, exB]
      norm_num [medianQ, meanQ, List.insertionSort, List.orderedInsert]
    rw [resumen, hkeys, List.map_cons, List.map_cons, List.map_nil, hA, hB]
    rw [List.insertionSort, List.insertionSort, List.insertionSort,
      List.orderedInsert, List.orderedInsert]
    norm_num [byMeanDesc]
